import Mathlib

/-!
Verification of the reminder/notification scheduling subsystem of the
Idan_sys CRM repository. The definitions below are shallow embeddings of
the relevant source functions:

* `src/src/hooks/useUnifiedEventNotifications.tsx` — the store-polling
  checker (`checkReminders`), late tolerance 5 minutes;
* `src/src/hooks/useReminderNotifications.ts` — the network-polling
  checker (`checkUnifiedEvents`), late tolerance 10 minutes, with its
  per-session dedup set `notifiedEventsRef`;
* `src/src/store/unifiedEventStore.ts` — `getRemindersForNotification`
  and `markAsNotified`;
* `src/src/store/notificationStore.ts` — `addNotification`;
* the server `ReminderModel.findDue` query and `dateUtils.normalizeTimeString`.

Times are modelled as integer epoch milliseconds (client side) or epoch
seconds (server side). JavaScript `Date` parsing is abstracted by storing
the parse result directly: `startTimeMs = none` models a string for which
`new Date(...)` yields `NaN` (the checkers skip such events), and
`startTimeMs = some t` models a string parsing to instant `t`.
-/

/-- Client-side unified event as held in `unifiedEventStore` (interface
`UnifiedEvent`). `isActive` and `notified` are optional in the TypeScript
interface, hence `Option Bool`; `advanceNotice` is a required number. -/
structure UnifiedEvent where
  id : String
  eventType : String
  startTimeMs : Option Int
  advanceNotice : Int
  isActive : Option Bool
  notified : Option Bool
  deriving Repr, DecidableEq

/-- The candidate filter of `checkReminders` in
`useUnifiedEventNotifications.tsx` (line 31): events with
`eventType === 'reminder' && (isActive ?? true) && !(notified ?? false)`. -/
def reminderFilter (e : UnifiedEvent) : Bool :=
  e.eventType == "reminder" && e.isActive.getD true && !(e.notified.getD false)

/-- The per-event window test of `checkReminders` (lines 37-49):
parse `startTime` (skip when `NaN`), compute
`notificationTime = startTime - advanceNotice*60*1000`, and fire when
`notificationTime <= now < startTime` and the elapsed time since the
window opened is between 0 and 5 minutes. The JS code computes
`timeDiffMinutes = (now - notificationTime)/60000` as a float and tests
`timeDiffMinutes >= 0 && timeDiffMinutes <= 5`; over integer millisecond
inputs that is exactly `0 <= now - notificationTime <= 300000`. -/
def storeFiresAt (now : Int) (e : UnifiedEvent) : Bool :=
  match e.startTimeMs with
  | none => false
  | some s =>
    let notificationTime := s - e.advanceNotice * 60 * 1000
    if notificationTime ≤ now ∧ now < s then
      decide (0 ≤ now - notificationTime) &&
        decide (now - notificationTime ≤ 5 * 60 * 1000)
    else false

/-- An event is dispatched by a `checkReminders` tick exactly when it
passes the candidate filter and the window test. -/
def storeFires (now : Int) (e : UnifiedEvent) : Bool :=
  reminderFilter e && storeFiresAt now e

/-- The set of events a `checkReminders` tick dispatches (toast,
notification-center entry and `markAsNotified` call) at instant `now`. -/
def checkRemindersFired (now : Int) (events : List UnifiedEvent) : List UnifiedEvent :=
  events.filter fun e => storeFires now e

/-- `getRemindersForNotification` from `unifiedEventStore.ts` (lines
501-508): `eventType === 'reminder' && isActive && !notified &&
advanceNotice > 0`; here `isActive` and `notified` are raw optional
fields, so JS truthiness gives `isActive.getD false`. -/
def getRemindersForNotification (events : List UnifiedEvent) : List UnifiedEvent :=
  events.filter fun e =>
    e.eventType == "reminder" && e.isActive.getD false &&
      !(e.notified.getD false) && decide (0 < e.advanceNotice)

/-- One `checkReminders` tick of the store-polling checker, including the
local effect of the per-event `markAsNotified(event.id)` calls. The
dispatcher has no in-memory dedup set: suppression of later re-fires
relies entirely on the store's `notified` flag, which `markAsNotified`
sets only when its PATCH succeeds (`persistOk id = true`) and leaves
unchanged on any failure (the `catch` branch only shows an error toast).
Returns the updated event list and the number of dispatched events
(each dispatch is one toast + one notification-center entry and one
mark-notified call). -/
def storeTick (persistOk : String → Bool) (now : Int)
    (events : List UnifiedEvent) : List UnifiedEvent × Nat :=
  let fired := checkRemindersFired now events
  (events.map fun e =>
      if (fired.any fun f => f.id == e.id) && persistOk e.id then
        { e with notified := some true }
      else e,
    fired.length)

/-- Network event as consumed by `checkUnifiedEvents` in
`useReminderNotifications.ts`: an untyped (`any`) JSON object, so every
flag is optional and `id` is a number. -/
structure NetEvent where
  id : Nat
  eventType : String
  startTimeMs : Option Int
  advanceNotice : Option Int
  isActive : Option Bool
  notified : Option Bool
  deriving Repr, DecidableEq

/-- The pure firing test of `checkUnifiedEvents` (lines 77-108), after
the dedup-set check: require `eventType === 'reminder' && isActive &&
!notified` (JS truthiness: an absent `isActive` skips the event), parse
`startTime` (skip on `NaN`), take `advanceNotice || 5` (so an absent or
zero advance notice becomes 5), and fire when
`notificationTime <= now < startTime` with the elapsed time since the
window opened between 0 and 10 minutes. -/
def checkUnifiedFires (now : Int) (e : NetEvent) : Bool :=
  if e.eventType == "reminder" && e.isActive.getD false && !(e.notified.getD false) then
    match e.startTimeMs with
    | none => false
    | some s =>
      let advanceNoticeMin : Int :=
        match e.advanceNotice with
        | some v => if v == 0 then 5 else v
        | none => 5
      let notificationTime := s - advanceNoticeMin * 60 * 1000
      if notificationTime ≤ now ∧ now < s then
        decide (0 ≤ now - notificationTime) &&
          decide (now - notificationTime ≤ 10 * 60 * 1000)
      else false
  else false

/-- The per-event dispatch step of `checkUnifiedEvents` against the
in-memory dedup set `notifiedEventsRef` (lines 72-158): skip when the id
is already in the set; otherwise, when the firing test passes, emit the
channel set (toast + notification-center entry), add the id to the set,
and issue one mark-notified PATCH (whose outcome never affects the set).
Returns the new dedup set, the number of channel-emission sets, and the
number of persistence calls. -/
def dispatchUnifiedEvent (dedup : List Nat) (now : Int) (e : NetEvent) :
    List Nat × Nat × Nat :=
  if dedup.contains e.id then (dedup, 0, 0)
  else if checkUnifiedFires now e then (e.id :: dedup, 1, 1)
  else (dedup, 0, 0)

/-- Lifecycle state of the network-polling checker: whether the polling
interval is armed, and the contents of `notifiedEventsRef.current`. The
ref is created once at component mount (`useRef(new Set())`) and is never
written by the effect setup or its cleanup. -/
structure SchedulerState where
  running : Bool
  notifiedEvents : List Nat
  deriving Repr, DecidableEq

/-- Component mount: `useRef<Set<number>>(new Set())`, no interval yet. -/
def mountChecker : SchedulerState := ⟨false, []⟩

/-- Effect run with an authenticated session: arms the interval. The
dedup ref is not touched. -/
def startChecker (s : SchedulerState) : SchedulerState := { s with running := true }

/-- Effect cleanup (session end): `clearInterval(interval)` only. The
dedup ref is not touched. -/
def stopChecker (s : SchedulerState) : SchedulerState := { s with running := false }

/-- Server-side row of `unified_events` as seen by `ReminderModel`
queries, with `start_time` as epoch seconds. -/
structure DbReminder where
  id : Nat
  eventType : String
  startTimeSec : Int
  advanceNotice : Int
  isActive : Bool
  notified : Bool
  deriving Repr, DecidableEq

/-- `ReminderModel.findDue`: rows with `is_active = true AND notified =
false AND event_type = 'reminder' AND
EXTRACT(EPOCH FROM (start_time - NOW()))/60 <= advance_notice`. Over
exact numerics the last condition is `startTimeSec - nowSec <=
advanceNotice * 60`. The route `GET /due/now` returns this list as is. -/
def findDue (nowSec : Int) (rows : List DbReminder) : List DbReminder :=
  rows.filter fun e =>
    e.isActive && !e.notified && e.eventType == "reminder" &&
      decide (e.startTimeSec - nowSec ≤ e.advanceNotice * 60)

/-- JavaScript `s.padStart(2, '0')`: left-pad with zeros to length 2. -/
def padStart2 (s : String) : String :=
  if s.length < 2 then String.mk (List.replicate (2 - s.length) '0') ++ s else s

/-- JavaScript `String.prototype.split` with a single-character
separator, on the character list: splitting the empty string gives one
empty part, a separator character opens a new part, and any other
character is prepended to the first part of the remainder. -/
def splitOnChar (sep : Char) : List Char → List (List Char)
  | [] => [[]]
  | c :: rest =>
    if c == sep then [] :: splitOnChar sep rest
    else
      match splitOnChar sep rest with
      | h :: t => (c :: h) :: t
      | [] => [[c]]

/-- JavaScript `s.split(sep)` for a one-character separator, producing
strings. -/
def splitChar (sep : Char) (s : String) : List String :=
  (splitOnChar sep s.data).map String.mk

/-- `normalizeTimeString` from the date utilities: falsy input (the empty
string) yields `"00:00"`; otherwise split on `':'` and, when at least two
parts exist, return the first two parts padded to two characters; any
other shape yields `"00:00"`. -/
def normalizeTimeString (timeString : String) : String :=
  if timeString = "" then "00:00"
  else
    match splitChar ':' timeString with
    | hours :: minutes :: _ => padStart2 hours ++ ":" ++ padStart2 minutes
    | _ => "00:00"

/-- Metadata record of a notification payload; the duplicate check of
`addNotification` only inspects `metadata?.reminderId`, and the reminder
dispatchers attach an `eventId`. Absent keys are `none`. -/
structure NotifMeta where
  reminderId : Option String
  eventId : Option String
  deriving Repr, DecidableEq

/-- JS `metadata?.reminderId`: `undefined` when the metadata object or
the key is absent. -/
def reminderIdOf (m : Option NotifMeta) : Option String :=
  m.bind fun meta => meta.reminderId

/-- A stored notification (interface `Notification` of
`notificationStore.ts`). -/
structure Notif where
  id : String
  ntype : String
  title : String
  message : String
  priority : String
  createdAt : String
  read : Bool
  userId : String
  metadata : Option NotifMeta
  deriving Repr, DecidableEq

/-- The zustand notification store state: the notification list and the
unread counter. -/
structure NotifStore where
  notifications : List Notif
  unreadCount : Nat
  deriving Repr, DecidableEq

/-- The argument of `addNotification` (a `Notification` without `id`,
`createdAt`, `read`, `userId`). -/
structure NotifPayload where
  ntype : String
  title : String
  message : String
  priority : String
  metadata : Option NotifMeta
  deriving Repr, DecidableEq

/-- The duplicate check of `addNotification` (lines 46-57): some stored
notification has the same type, title, message and `metadata?.reminderId`,
belongs to the same user, and is still unread. -/
def isDuplicate (st : NotifStore) (uid : String) (p : NotifPayload) : Bool :=
  st.notifications.any fun n =>
    n.ntype == p.ntype && n.title == p.title && n.message == p.message &&
      n.userId == uid && reminderIdOf n.metadata == reminderIdOf p.metadata &&
      !n.read

/-- `addNotification` from `notificationStore.ts` (lines 42-93): a missing
authenticated user leaves the store unchanged; a detected duplicate leaves
the store unchanged; otherwise a new unread notification (with a fresh
`crypto.randomUUID()` id and the current timestamp, both passed in here)
is prepended and `unreadCount` is incremented. The remaining side effects
(sync event, browser notification, sound) do not touch this store. -/
def addNotification (user : Option String) (freshId createdAt : String)
    (p : NotifPayload) (st : NotifStore) : NotifStore :=
  match user with
  | none => st
  | some uid =>
    if isDuplicate st uid p then st
    else
      { notifications :=
          { id := freshId, ntype := p.ntype, title := p.title,
            message := p.message, priority := p.priority,
            createdAt := createdAt, read := false, userId := uid,
            metadata := p.metadata } :: st.notifications,
        unreadCount := st.unreadCount + 1 }

/-- The fallible body of `markAsNotified` in `unifiedEventStore.ts`
(lines 438-469): throw when either token is missing, throw when the
PATCH response is not ok (`respOk = some false`) or the fetch itself
fails (`respOk = none`); only then update the local event list. -/
def markAsNotifiedInner (sessionToken accessToken : Option String)
    (respOk : Option Bool) (id : String) (events : List UnifiedEvent) :
    Except String (List UnifiedEvent) :=
  match sessionToken, accessToken with
  | some _, some _ =>
    match respOk with
    | none => Except.error "fetch failed"
    | some false => Except.error "response not ok"
    | some true =>
      Except.ok (events.map fun e =>
        if e.id == id then { e with notified := some true } else e)
  | _, _ => Except.error "missing tokens"

/-- `markAsNotified`: the whole body is wrapped in try/catch whose catch
branch only shows an error toast, so every failure leaves the local
events unchanged and no exception escapes. -/
def markAsNotified (sessionToken accessToken : Option String)
    (respOk : Option Bool) (id : String) (events : List UnifiedEvent) :
    List UnifiedEvent :=
  match markAsNotifiedInner sessionToken accessToken respOk id events with
  | Except.ok updated => updated
  | Except.error _ => events

/-- List membership implies a positive `contains` test (the dedup set is
a `Set<number>` whose `has` is modelled by `List.contains`). -/
theorem contains_of_mem {l : List Nat} {a : Nat} (h : a ∈ l) :
    l.contains a = true := by
  induction l with
  | nil => cases h
  | cons b t ih =>
    rcases List.mem_cons.mp h with h1 | h2
    · subst h1; simp [List.contains_cons]
    · simp only [List.contains_cons, Bool.or_eq_true]
      exact Or.inr (ih h2)

/-- An `isActive` field that is not explicitly `false` defaults to active
under the `?? true` coalescing of `checkReminders`. -/
theorem getD_true_of_ne_some_false {o : Option Bool} (h : o ≠ some false) :
    o.getD true = true := by
  cases o with
  | none => rfl
  | some b => cases b with
    | false => exact absurd rfl h
    | true => rfl

/-- A `notified` field that is not explicitly `true` defaults to
un-notified under the `?? false` coalescing. -/
theorem getD_false_of_ne_some_true {o : Option Bool} (h : o ≠ some true) :
    o.getD false = false := by
  cases o with
  | none => rfl
  | some b => cases b with
    | false => rfl
    | true => exact absurd rfl h

/-- Claim C1, counterexample: the event with advance notice 60 minutes and
start time 7200000 ms is an active, un-notified reminder with a parseable
start time, and the instant 3960000 ms lies inside the claimed firing
window `[startTime - 60 min, startTime)` (the window opened 6 minutes
earlier), yet the store-polling evaluation does not fire it, because the
5-minute late tolerance has been exceeded. -/
theorem storeFires_in_window_not_fired :
    reminderFilter (⟨"e1", "reminder", some 7200000, 60, some true, some false⟩ : UnifiedEvent) = true ∧
    ((7200000 : Int) - 60 * 60 * 1000 ≤ 3960000 ∧ (3960000 : Int) < 7200000) ∧
    storeFires 3960000
      (⟨"e1", "reminder", some 7200000, 60, some true, some false⟩ : UnifiedEvent) = false := by
  decide

/-- Claim C1 (amended): for every active, un-notified reminder event with
a parseable start time, the due-event evaluation fires the event iff `now`
lies in `[startTime - N min, startTime)` AND at most the late tolerance
has elapsed since the window opened — 5 minutes in the store-polling
checker and 10 minutes in the network-polling checker (where additionally
`advanceNotice = 0` is coerced to 5 by the `|| 5` default, so the exact
window shape requires `N ≠ 0`). -/
theorem dueEval_window_tolerance_charact :
    (∀ (e : UnifiedEvent) (s now : Int),
        e.eventType = "reminder" → e.isActive ≠ some false →
        e.notified ≠ some true → e.startTimeMs = some s →
        (storeFires now e = true ↔
          s - e.advanceNotice * 60 * 1000 ≤ now ∧ now < s ∧
            now - (s - e.advanceNotice * 60 * 1000) ≤ 5 * 60 * 1000)) ∧
    (∀ (e : NetEvent) (s N now : Int),
        e.eventType = "reminder" → e.isActive = some true →
        e.notified ≠ some true → e.startTimeMs = some s →
        e.advanceNotice = some N → N ≠ 0 →
        (checkUnifiedFires now e = true ↔
          s - N * 60 * 1000 ≤ now ∧ now < s ∧
            now - (s - N * 60 * 1000) ≤ 10 * 60 * 1000)) := by
  constructor
  · intro e s now hType hActive hNotified hStart
    have hA := getD_true_of_ne_some_false hActive
    have hN := getD_false_of_ne_some_true hNotified
    simp only [storeFires, reminderFilter, storeFiresAt, hStart, hType, hA, hN,
      beq_self_eq_true, Bool.not_false, Bool.and_true, Bool.true_and, Bool.and_self]
    split
    · rename_i h
      simp only [Bool.and_eq_true, decide_eq_true_eq]
      omega
    · rename_i h
      simp only [Bool.false_eq_true, false_iff]
      omega
  · intro e s N now hType hActive hNotified hStart hAdv hN0
    have hN := getD_false_of_ne_some_true hNotified
    have hNe : (N == 0) = false := by
      simp only [beq_eq_false_iff_ne, ne_eq]
      exact hN0
    simp only [checkUnifiedFires, hStart, hType, hActive, hAdv, hN, hNe,
      beq_self_eq_true, Option.getD_some, Bool.not_false, Bool.and_true,
      Bool.true_and, Bool.and_self, if_true, if_false, Bool.false_eq_true]
    split
    · rename_i h
      simp only [Bool.and_eq_true, decide_eq_true_eq]
      omega
    · rename_i h
      simp only [Bool.false_eq_true, false_iff]
      omega

/-- Claim C1, witness: both characterizations applied at a concrete event
and instant inside the window and the tolerance. -/
theorem dueEval_window_tolerance_charact_app :
    storeFires 350000 (⟨"e1", "reminder", some 600000, 5, none, none⟩ : UnifiedEvent) = true ∧
    checkUnifiedFires 350000 (⟨1, "reminder", some 600000, some 5, some true, none⟩ : NetEvent) = true := by
  have h := dueEval_window_tolerance_charact
  constructor
  · exact (h.1 ⟨"e1", "reminder", some 600000, 5, none, none⟩ 600000 350000 rfl
      (by simp) (by simp) rfl).mpr (by decide)
  · exact (h.2 ⟨1, "reminder", some 600000, some 5, some true, none⟩ 600000 5 350000 rfl
      rfl (by simp) rfl rfl (by decide)).mpr (by decide)

/-- Claim C2: an event whose notice window opened more than the late
tolerance ago (5 minutes in the store-polling checker, 10 minutes in the
network-polling checker) is not fired on that tick, even though
`now < startTime`. Stated for all events, which subsumes the active,
un-notified reminder case of the claim. -/
theorem late_tolerance_excludes :
    (∀ (e : UnifiedEvent) (s now : Int),
        e.startTimeMs = some s → now < s →
        5 * 60 * 1000 < now - (s - e.advanceNotice * 60 * 1000) →
        storeFires now e = false) ∧
    (∀ (e : NetEvent) (s N now : Int),
        e.startTimeMs = some s → e.advanceNotice = some N → now < s →
        10 * 60 * 1000 < now - (s - N * 60 * 1000) →
        checkUnifiedFires now e = false) := by
  constructor
  · intro e s now hStart hLt hTol
    have hB : decide (now - (s - e.advanceNotice * 60 * 1000) ≤ 5 * 60 * 1000) = false := by
      simp only [decide_eq_false_iff_not]
      omega
    have hAt : storeFiresAt now e = false := by
      simp only [storeFiresAt, hStart]
      split
      · simp only [hB, Bool.and_false]
      · rfl
    simp [storeFires, hAt]
  · intro e s N now hStart hAdv hLt hTol
    by_cases hN0 : N = 0
    · subst hN0
      exfalso
      omega
    · have hNe : (N == 0) = false := by
        simp only [beq_eq_false_iff_ne, ne_eq]
        exact hN0
      have hB : decide (now - (s - N * 60 * 1000) ≤ 10 * 60 * 1000) = false := by
        simp only [decide_eq_false_iff_not]
        omega
      simp only [checkUnifiedFires, hStart, hAdv, hNe, Bool.false_eq_true, if_false]
      split
      · split
        · simp only [hB, Bool.and_false]
        · rfl
      · rfl

/-- Claim C2, witness: a reminder whose 60-minute window opened 23.3
minutes ago (now 5000000 ms, start 7200000 ms) is excluded by both
checkers although `now < startTime`. -/
theorem late_tolerance_excludes_app :
    storeFires 5000000
      (⟨"e1", "reminder", some 7200000, 60, some true, some false⟩ : UnifiedEvent) = false ∧
    checkUnifiedFires 5000000
      (⟨1, "reminder", some 7200000, some 60, some true, some false⟩ : NetEvent) = false := by
  have h := late_tolerance_excludes
  exact ⟨h.1 ⟨"e1", "reminder", some 7200000, 60, some true, some false⟩ 7200000 5000000
      rfl (by decide) (by decide),
    h.2 ⟨1, "reminder", some 7200000, some 60, some true, some false⟩ 7200000 60 5000000
      rfl rfl (by decide) (by decide)⟩

/-- Claim C3, counterexample: the store-polling dispatcher has no
in-memory dedup set. With a due reminder whose mark-notified PATCH fails,
the tick at 360000 ms dispatches it (one toast, one notification-center
entry, one persistence call) and the next tick at 390000 ms — still
inside the same session and the same tolerance window — dispatches it
again, so two dispatch calls produce two emission sets and two
persistence calls rather than one. -/
theorem storeTick_double_dispatch :
    (storeTick (fun _ => false) 360000
        [(⟨"e1", "reminder", some 600000, 5, some true, some false⟩ : UnifiedEvent)]).2 = 1 ∧
    (storeTick (fun _ => false) 390000
        (storeTick (fun _ => false) 360000
          [(⟨"e1", "reminder", some 600000, 5, some true, some false⟩ : UnifiedEvent)]).1).2 = 1 := by
  decide

/-- Claim C3 (amended): in the network-polling checker the in-memory
per-session set keyed by event id makes a second dispatch of the same due
event a no-op — exactly one emission set and one persistence call across
both calls. In the store-polling checker, which has no such set, the
repeat is suppressed only when the mark-notified persistence succeeded
(the local `notified` flag then excludes the event); when persistence
fails, the same event fires again on a later in-window tick. -/
theorem dispatcher_dedup_behaviour :
    (∀ (dedup : List Nat) (now : Int) (e : NetEvent),
        checkUnifiedFires now e = true → dedup.contains e.id = false →
        dispatchUnifiedEvent dedup now e = (e.id :: dedup, 1, 1) ∧
        dispatchUnifiedEvent (e.id :: dedup) now e = (e.id :: dedup, 0, 0)) ∧
    (∀ (persistOk : String → Bool) (now now2 : Int) (e : UnifiedEvent),
        persistOk e.id = true → storeFires now e = true →
        (storeTick persistOk now [e]).2 = 1 ∧
        (storeTick persistOk now2 (storeTick persistOk now [e]).1).2 = 0) ∧
    (∀ (persistOk : String → Bool) (now now2 : Int) (e : UnifiedEvent),
        persistOk e.id = false → storeFires now e = true → storeFires now2 e = true →
        (storeTick persistOk now2 (storeTick persistOk now [e]).1).2 = 1) := by
  refine ⟨?_, ?_, ?_⟩
  · intro dedup now e hFires hNotMem
    constructor
    · simp only [dispatchUnifiedEvent, hNotMem, hFires, Bool.false_eq_true, if_false, if_true]
    · simp only [dispatchUnifiedEvent, List.contains_cons, beq_self_eq_true, Bool.true_or,
        if_true]
  · intro persistOk now now2 e hPersist hFires
    have hNotFires : storeFires now2 { e with notified := some true } = false := by
      simp [storeFires, reminderFilter]
    constructor
    · simp [storeTick, checkRemindersFired, hFires]
    · simp [storeTick, checkRemindersFired, hFires, hPersist, hNotFires]
  · intro persistOk now now2 e hPersist hFires hFires2
    simp [storeTick, checkRemindersFired, hFires, hFires2, hPersist]

/-- Claim C3, witness: the dedup behaviour applied to a concrete due
event, dedup set and persistence outcome. -/
theorem dispatcher_dedup_behaviour_app :
    dispatchUnifiedEvent [] 350000
        (⟨7, "reminder", some 600000, some 5, some true, none⟩ : NetEvent) = ([7], 1, 1) ∧
    dispatchUnifiedEvent [7] 350000
        (⟨7, "reminder", some 600000, some 5, some true, none⟩ : NetEvent) = ([7], 0, 0) ∧
    (storeTick (fun _ => true) 390000
        (storeTick (fun _ => true) 360000
          [(⟨"e1", "reminder", some 600000, 5, some true, some false⟩ : UnifiedEvent)]).1).2 = 0 := by
  have h1 := dispatcher_dedup_behaviour.1 []
    350000 ⟨7, "reminder", some 600000, some 5, some true, none⟩ (by decide) (by decide)
  have h2 := dispatcher_dedup_behaviour.2.1 (fun _ => true)
    360000 390000 ⟨"e1", "reminder", some 600000, 5, some true, some false⟩ rfl (by decide)
  exact ⟨h1.1, h1.2, h2.2⟩

/-- Claim C4: the due-event evaluations never select an event with
`notified = true` or `isActive = false`: every selected event has
`eventType = "reminder"`, is not explicitly inactive, and is not
notified. For `getRemindersForNotification` and the network checker
(whose truthiness tests require the flag to be present and true) the
output even satisfies `isActive = some true`, and
`getRemindersForNotification` additionally requires a positive advance
notice. -/
theorem evaluator_no_double_counting :
    (∀ (now : Int) (events : List UnifiedEvent) (e : UnifiedEvent),
        e ∈ checkRemindersFired now events →
        e.eventType = "reminder" ∧ e.isActive ≠ some false ∧ e.notified ≠ some true) ∧
    (∀ (events : List UnifiedEvent) (e : UnifiedEvent),
        e ∈ getRemindersForNotification events →
        e.eventType = "reminder" ∧ e.isActive = some true ∧ e.notified ≠ some true ∧
          0 < e.advanceNotice) ∧
    (∀ (now : Int) (e : NetEvent),
        checkUnifiedFires now e = true →
        e.eventType = "reminder" ∧ e.isActive = some true ∧ e.notified ≠ some true) := by
  refine ⟨?_, ?_, ?_⟩
  · intro now events e hMem
    have hp := (List.mem_filter.mp hMem).2
    simp only [storeFires, Bool.and_eq_true] at hp
    have hrf : reminderFilter e = true := hp.1
    simp only [reminderFilter, Bool.and_eq_true, beq_iff_eq, Bool.not_eq_true'] at hrf
    refine ⟨hrf.1.1, ?_, ?_⟩
    · intro hContra
      rw [hContra] at hrf
      simp at hrf
    · intro hContra
      rw [hContra] at hrf
      simp at hrf
  · intro events e hMem
    have hp := (List.mem_filter.mp hMem).2
    simp only [Bool.and_eq_true, beq_iff_eq, Bool.not_eq_true', decide_eq_true_eq] at hp
    obtain ⟨⟨⟨hType, hActive⟩, hNotified⟩, hAdv⟩ := hp
    refine ⟨hType, ?_, ?_, hAdv⟩
    · cases hA : e.isActive with
      | none => rw [hA] at hActive; simp at hActive
      | some b =>
        cases b with
        | false => rw [hA] at hActive; simp at hActive
        | true => rfl
    · intro hContra
      rw [hContra] at hNotified
      simp at hNotified
  · intro now e hFires
    simp only [checkUnifiedFires] at hFires
    split at hFires
    · rename_i hGuard
      simp only [Bool.and_eq_true, beq_iff_eq, Bool.not_eq_true'] at hGuard
      obtain ⟨⟨hType, hActive⟩, hNotified⟩ := hGuard
      refine ⟨hType, ?_, ?_⟩
      · cases hA : e.isActive with
        | none => rw [hA] at hActive; simp at hActive
        | some b =>
          cases b with
          | false => rw [hA] at hActive; simp at hActive
          | true => rfl
      · intro hContra
        rw [hContra] at hNotified
        simp at hNotified
    · exact absurd hFires (by simp)

/-- Claim C4, witness: the invariants instantiated on concrete selected
events. -/
theorem evaluator_no_double_counting_app :
    (⟨"e1", "reminder", some 600000, 5, some true, some false⟩ : UnifiedEvent).eventType
        = "reminder" ∧
    (⟨"e1", "reminder", some 600000, 5, some true, some false⟩ : UnifiedEvent).isActive
        ≠ some false ∧
    (⟨"e2", "reminder", some 600000, 7, some true, none⟩ : UnifiedEvent).isActive
        = some true ∧
    (⟨3, "reminder", some 600000, some 5, some true, none⟩ : NetEvent).notified
        ≠ some true := by
  have h1 := evaluator_no_double_counting.1 350000
    [⟨"e1", "reminder", some 600000, 5, some true, some false⟩]
    ⟨"e1", "reminder", some 600000, 5, some true, some false⟩ (by decide)
  have h2 := evaluator_no_double_counting.2.1
    [⟨"e2", "reminder", some 600000, 7, some true, none⟩]
    ⟨"e2", "reminder", some 600000, 7, some true, none⟩ (by decide)
  have h3 := evaluator_no_double_counting.2.2 350000
    ⟨3, "reminder", some 600000, some 5, some true, none⟩ (by decide)
  exact ⟨h1.1, h1.2.1, h2.2.1, h3.2.2⟩

/-- Claim C5, counterexample: an active, un-notified reminder with
`advanceNotice = 0` and start time 600000 ms is fired at no instant at
all by the store-polling evaluation — in particular not at
`now = startTime`, where the claim asserts it fires — because the window
`[startTime, startTime)` is empty; and `getRemindersForNotification`
excludes it outright since it requires `advanceNotice > 0`. -/
theorem zero_advance_never_fires_cex :
    (∀ now : Int, storeFires now
        (⟨"e0", "reminder", some 600000, 0, some true, some false⟩ : UnifiedEvent) = false) ∧
    storeFires 600000
        (⟨"e0", "reminder", some 600000, 0, some true, some false⟩ : UnifiedEvent) = false ∧
    getRemindersForNotification
        [(⟨"e0", "reminder", some 600000, 0, some true, some false⟩ : UnifiedEvent)] = [] := by
  refine ⟨?_, by decide, by decide⟩
  intro now
  have hAt : storeFiresAt now
      (⟨"e0", "reminder", some 600000, 0, some true, some false⟩ : UnifiedEvent) = false := by
    simp only [storeFiresAt]
    split
    · rename_i h
      exfalso
      omega
    · rfl
  simp [storeFires, hAt]

/-- Claim C5 (amended): an active, un-notified reminder event with
`advanceNoticeMinutes = 0` never fires: there is no instant at which the
due-event evaluation fires it (its firing window `[startTime, startTime)`
is empty, so in particular it does not fire at `now = startTime`), and
`getRemindersForNotification` excludes events with `advanceNotice = 0`
from the notification candidates altogether. It does also never fire
before `startTime`. -/
theorem zero_advance_never_fires :
    ∀ (e : UnifiedEvent), e.advanceNotice = 0 →
      (∀ now : Int, storeFires now e = false) ∧
      (∀ events : List UnifiedEvent, e ∉ getRemindersForNotification events) := by
  intro e hAdv
  constructor
  · intro now
    have hAt : storeFiresAt now e = false := by
      cases hS : e.startTimeMs with
      | none => simp [storeFiresAt, hS]
      | some s =>
        simp only [storeFiresAt, hS, hAdv]
        split
        · rename_i h
          exfalso
          omega
        · rfl
    simp [storeFires, hAt]
  · intro events hMem
    have hp := (List.mem_filter.mp hMem).2
    simp only [Bool.and_eq_true, decide_eq_true_eq] at hp
    rw [hAdv] at hp
    exact absurd hp.2 (by omega)

/-- Claim C5, witness: the amended statement applied to a concrete
zero-advance-notice reminder. -/
theorem zero_advance_never_fires_app :
    storeFires 599999
        (⟨"e0", "reminder", some 600000, 0, some true, some false⟩ : UnifiedEvent) = false ∧
    (⟨"e0", "reminder", some 600000, 0, some true, some false⟩ : UnifiedEvent) ∉
      getRemindersForNotification
        [(⟨"e0", "reminder", some 600000, 0, some true, some false⟩ : UnifiedEvent)] := by
  have h := zero_advance_never_fires
    ⟨"e0", "reminder", some 600000, 0, some true, some false⟩ rfl
  exact ⟨h.1 599999, h.2 [⟨"e0", "reminder", some 600000, 0, some true, some false⟩]⟩

/-- Claim C6, counterexample: with event id 7 already in the dedup set,
stopping the checker (effect cleanup on logout) and restarting it (effect
re-run on login) leaves the set unchanged — it is not cleared back to the
empty set of a fresh mount — and a due reminder with id 7 is still
suppressed after the restart (no emission, no persistence call). -/
theorem restart_keeps_dedup_cex :
    (startChecker (stopChecker ⟨true, [7]⟩)).notifiedEvents = [7] ∧
    (startChecker (stopChecker ⟨true, [7]⟩)).notifiedEvents ≠ mountChecker.notifiedEvents ∧
    dispatchUnifiedEvent (startChecker (stopChecker ⟨true, [7]⟩)).notifiedEvents 350000
        (⟨7, "reminder", some 600000, some 5, some true, none⟩ : NetEvent) = ([7], 0, 0) := by
  decide

/-- Claim C6 (amended): stopping the notification checker and restarting
it does not clear the in-memory set of already-dispatched event ids: the
set lives in a component-scoped ref that survives the effect cleanup and
re-run, so a dedup entry recorded in an earlier session still suppresses
the fire in the new session. The set starts empty only at component
mount. -/
theorem restart_keeps_dedup :
    ∀ (s : SchedulerState) (now : Int) (e : NetEvent),
      (startChecker (stopChecker s)).notifiedEvents = s.notifiedEvents ∧
      (e.id ∈ s.notifiedEvents →
        dispatchUnifiedEvent (startChecker (stopChecker s)).notifiedEvents now e =
          (s.notifiedEvents, 0, 0)) ∧
      mountChecker.notifiedEvents = [] := by
  intro s now e
  refine ⟨rfl, ?_, rfl⟩
  intro hMem
  have hC : s.notifiedEvents.contains e.id = true := contains_of_mem hMem
  simp only [startChecker, stopChecker, dispatchUnifiedEvent, hC, if_true]

/-- Claim C6, witness: the amended statement applied to a concrete state
whose dedup set holds id 7. -/
theorem restart_keeps_dedup_app :
    (startChecker (stopChecker ⟨true, [7, 9]⟩)).notifiedEvents = [7, 9] ∧
    dispatchUnifiedEvent (startChecker (stopChecker ⟨true, [7, 9]⟩)).notifiedEvents 350000
        (⟨7, "reminder", some 600000, some 5, some true, none⟩ : NetEvent) = ([7, 9], 0, 0) := by
  have h := restart_keeps_dedup ⟨true, [7, 9]⟩ 350000
    ⟨7, "reminder", some 600000, some 5, some true, none⟩
  exact ⟨h.1, h.2.1 (by decide)⟩

/-- Claim C7, counterexample: a row whose start time passed an hour ago
(start 1000 s, now 5000 s) is active, un-notified and of reminder type,
and `findDue` still returns it — the query has no lower bound, so the
claim that no event with a passed start time is returned is false. -/
theorem findDue_returns_passed_cex :
    ((1000 : Int) < 5000) ∧
    findDue 5000 [(⟨1, "reminder", 1000, 30, true, false⟩ : DbReminder)] =
      [(⟨1, "reminder", 1000, 30, true, false⟩ : DbReminder)] := by
  decide

/-- Claim C7 (amended): the `findDue` query (served at GET /due/now)
returns exactly the active, un-notified reminder events whose start time
is at most `advanceNotice` minutes in the future, i.e. those with
`startTime - now <= advanceNotice * 60` seconds; it imposes no lower
bound, so events whose start time has already passed are also returned. -/
theorem findDue_charact :
    ∀ (nowSec : Int) (rows : List DbReminder) (e : DbReminder),
      e ∈ findDue nowSec rows ↔
        e ∈ rows ∧ e.isActive = true ∧ e.notified = false ∧
          e.eventType = "reminder" ∧ e.startTimeSec - nowSec ≤ e.advanceNotice * 60 := by
  intro nowSec rows e
  simp only [findDue, List.mem_filter, Bool.and_eq_true, beq_iff_eq,
    Bool.not_eq_true', decide_eq_true_eq]
  tauto

/-- Claim C8: `normalizeTimeString` is total; the empty (falsy) input
yields `"00:00"`, an input splitting on `':'` into at least two parts
yields the first two parts each left-padded to two characters (truncating
any further parts such as seconds), and an input with fewer than two
colon-separated parts yields `"00:00"`. -/
theorem normalizeTimeString_spec :
    ∀ s : String,
      (s = "" → normalizeTimeString s = "00:00") ∧
      (∀ hours minutes rest, splitChar ':' s = hours :: minutes :: rest →
        normalizeTimeString s = padStart2 hours ++ ":" ++ padStart2 minutes) ∧
      ((splitChar ':' s).length < 2 → normalizeTimeString s = "00:00") := by
  intro s
  refine ⟨?_, ?_, ?_⟩
  · intro hEmpty
    simp [normalizeTimeString, hEmpty]
  · intro hours minutes rest hSplit
    by_cases hEmpty : s = ""
    · subst hEmpty
      rw [show splitChar ':' "" = [""] from rfl] at hSplit
      exact absurd hSplit (by simp)
    · simp only [normalizeTimeString, hEmpty, if_false, hSplit]
  · intro hLen
    by_cases hEmpty : s = ""
    · simp [normalizeTimeString, hEmpty]
    · simp only [normalizeTimeString, hEmpty, if_false]
      cases hSplit : splitChar ':' s with
      | nil => rfl
      | cons a t =>
        cases t with
        | nil => rfl
        | cons b t2 =>
          rw [hSplit] at hLen
          exact absurd hLen (by simp)

/-- Claim C8, witness: concrete applications — seconds are truncated and
single digits padded, a colon-free input falls back to 00:00. -/
theorem normalizeTimeString_spec_app :
    normalizeTimeString "9:5:30" = "09:05" ∧
    normalizeTimeString "abc" = "00:00" ∧
    normalizeTimeString "" = "00:00" := by
  refine ⟨?_, ?_, ?_⟩
  · have h := (normalizeTimeString_spec "9:5:30").2.1 "9" "5" ["30"] (by decide)
    rw [h]
    decide
  · exact (normalizeTimeString_spec "abc").2.2 (by decide)
  · exact (normalizeTimeString_spec "").1 rfl

/-- Claim C9: with no authenticated user `addNotification` leaves the
store untouched; with an authenticated user and a payload that is not yet
a duplicate, the first call stores exactly one new notification and
increments `unreadCount` exactly once, and the second call with the
identical payload is suppressed by the duplicate check (the first entry
is still unread) and leaves the store entirely unchanged. -/
theorem addNotification_dedup :
    (∀ (freshId createdAt : String) (p : NotifPayload) (st : NotifStore),
        addNotification none freshId createdAt p st = st) ∧
    (∀ (uid : String) (p : NotifPayload) (id1 t1 id2 t2 : String) (st : NotifStore),
        isDuplicate st uid p = false →
        (addNotification (some uid) id1 t1 p st).notifications.length =
            st.notifications.length + 1 ∧
        (addNotification (some uid) id1 t1 p st).unreadCount = st.unreadCount + 1 ∧
        addNotification (some uid) id2 t2 p (addNotification (some uid) id1 t1 p st) =
            addNotification (some uid) id1 t1 p st) := by
  constructor
  · intro freshId createdAt p st
    rfl
  · intro uid p id1 t1 id2 t2 st hDup
    have hFirst : addNotification (some uid) id1 t1 p st =
        { notifications :=
            { id := id1, ntype := p.ntype, title := p.title, message := p.message,
              priority := p.priority, createdAt := t1, read := false, userId := uid,
              metadata := p.metadata } :: st.notifications,
          unreadCount := st.unreadCount + 1 } := by
      simp only [addNotification, hDup, Bool.false_eq_true, if_false]
    have hDup2 : isDuplicate
        { notifications :=
            { id := id1, ntype := p.ntype, title := p.title, message := p.message,
              priority := p.priority, createdAt := t1, read := false, userId := uid,
              metadata := p.metadata } :: st.notifications,
          unreadCount := st.unreadCount + 1 } uid p = true := by
      simp [isDuplicate, reminderIdOf]
    refine ⟨?_, ?_, ?_⟩
    · rw [hFirst]
      simp
    · rw [hFirst]
    · rw [hFirst]
      simp only [addNotification, hDup2, if_true]

/-- Claim C9, witness: the dedup behaviour applied to a concrete user,
payload and empty store. -/
theorem addNotification_dedup_app :
    addNotification none "idX" "tX"
        (⟨"reminder", "T", "M", "high", some ⟨none, some "e1"⟩⟩ : NotifPayload)
        (⟨[], 0⟩ : NotifStore) = ⟨[], 0⟩ ∧
    (addNotification (some "u1") "id1" "t1"
        (⟨"reminder", "T", "M", "high", some ⟨none, some "e1"⟩⟩ : NotifPayload)
        (⟨[], 0⟩ : NotifStore)).notifications.length = 1 ∧
    (addNotification (some "u1") "id1" "t1"
        (⟨"reminder", "T", "M", "high", some ⟨none, some "e1"⟩⟩ : NotifPayload)
        (⟨[], 0⟩ : NotifStore)).unreadCount = 1 ∧
    addNotification (some "u1") "id2" "t2"
        (⟨"reminder", "T", "M", "high", some ⟨none, some "e1"⟩⟩ : NotifPayload)
        (addNotification (some "u1") "id1" "t1"
          (⟨"reminder", "T", "M", "high", some ⟨none, some "e1"⟩⟩ : NotifPayload)
          (⟨[], 0⟩ : NotifStore)) =
      addNotification (some "u1") "id1" "t1"
        (⟨"reminder", "T", "M", "high", some ⟨none, some "e1"⟩⟩ : NotifPayload)
        (⟨[], 0⟩ : NotifStore) := by
  have h1 := addNotification_dedup.1 "idX" "tX"
    ⟨"reminder", "T", "M", "high", some ⟨none, some "e1"⟩⟩ ⟨[], 0⟩
  have h2 := addNotification_dedup.2 "u1"
    ⟨"reminder", "T", "M", "high", some ⟨none, some "e1"⟩⟩ "id1" "t1" "id2" "t2"
    ⟨[], 0⟩ (by decide)
  exact ⟨h1, h2.1, h2.2.1, h2.2.2⟩

/-- Claim C10: the client store's `markAsNotified` never lets an
exception escape (every internal throw is caught and yields the original
list), it updates the local `notified` flag only when the PATCH
succeeded, and on any failure — missing tokens, network error, or a
non-ok response — the local events list is unchanged. -/
theorem markAsNotified_atomicity :
    ∀ (sessionToken accessToken : Option String) (respOk : Option Bool)
      (id : String) (events : List UnifiedEvent),
      (∀ msg, markAsNotifiedInner sessionToken accessToken respOk id events =
          Except.error msg →
        markAsNotified sessionToken accessToken respOk id events = events) ∧
      (sessionToken = none ∨ accessToken = none ∨ respOk ≠ some true →
        markAsNotified sessionToken accessToken respOk id events = events) ∧
      (∀ st at2, sessionToken = some st → accessToken = some at2 → respOk = some true →
        markAsNotified sessionToken accessToken respOk id events =
          events.map fun e => if e.id == id then { e with notified := some true } else e) := by
  intro sessionToken accessToken respOk id events
  refine ⟨?_, ?_, ?_⟩
  · intro msg hErr
    simp only [markAsNotified, hErr]
  · intro hFail
    cases sessionToken with
    | none => rfl
    | some st =>
      cases accessToken with
      | none => rfl
      | some at2 =>
        cases respOk with
        | none => rfl
        | some b =>
          cases b with
          | false => rfl
          | true =>
            rcases hFail with h | h | h
            · exact absurd h (by simp)
            · exact absurd h (by simp)
            · exact absurd rfl h
  · intro st at2 hS hA hR
    subst hS
    subst hA
    subst hR
    rfl

/-- Claim C10, witness: a missing session token leaves a concrete event
list unchanged, and a successful PATCH flips exactly the matching event's
notified flag. -/
theorem markAsNotified_atomicity_app :
    markAsNotified none (some "a") (some true) "e1"
        [(⟨"e1", "reminder", some 600000, 5, some true, some false⟩ : UnifiedEvent)] =
      [(⟨"e1", "reminder", some 600000, 5, some true, some false⟩ : UnifiedEvent)] ∧
    markAsNotified (some "s") (some "a") (some false) "e1"
        [(⟨"e1", "reminder", some 600000, 5, some true, some false⟩ : UnifiedEvent)] =
      [(⟨"e1", "reminder", some 600000, 5, some true, some false⟩ : UnifiedEvent)] ∧
    markAsNotified (some "s") (some "a") (some true) "e1"
        [(⟨"e1", "reminder", some 600000, 5, some true, some false⟩ : UnifiedEvent)] =
      [(⟨"e1", "reminder", some 600000, 5, some true, some true⟩ : UnifiedEvent)] := by
  have h1 := (markAsNotified_atomicity none (some "a") (some true) "e1"
    [⟨"e1", "reminder", some 600000, 5, some true, some false⟩]).2.1 (Or.inl rfl)
  have h2 := (markAsNotified_atomicity (some "s") (some "a") (some false) "e1"
    [⟨"e1", "reminder", some 600000, 5, some true, some false⟩]).2.1
    (Or.inr (Or.inr (by simp)))
  have h3 := (markAsNotified_atomicity (some "s") (some "a") (some true) "e1"
    [⟨"e1", "reminder", some 600000, 5, some true, some false⟩]).2.2 "s" "a" rfl rfl rfl
  refine ⟨h1, h2, ?_⟩
  rw [h3]
  decide
